import Mathlib

/-!
# Verification of the NutriBot nutrition-analysis engine

Shallow embedding of the engine's core (diet classifier, health-score model,
orchestrator) translated from:

* `src/models/diet_classifier.py`
* `src/models/health_score_model.py`
* `src/app/processor.py`

Text is modelled as `List Char` (Python `str`); Python floats as `ℚ`
(confidences as integer percentages); Python dicts keyed by the 13 canonical
nutrient names as association lists over a finite `Attr` type; a Python call
that may raise is modelled with `PyResult`.
-/

namespace NutriBot

/-! ## Text normalisation and keyword matching (`diet_classifier.py`)

`_clean_text` lower-cases, replaces every character that is neither a word
character (`\w`) nor whitespace (`\s`) by a space, collapses whitespace runs
to single spaces and strips the ends.  The result is exactly the word-character
runs of the lowered text joined by single spaces, which is how we compute it.
-/

/-- Python regex `\w` for the ASCII core: letters, digits, underscore. -/
def isWordChar (c : Char) : Bool := c.isAlphanum || c == '_'

/-- Python `str` whitespace (`\s`) for the ASCII core. -/
def pySpace (c : Char) : Bool :=
  c == ' ' || c == '\t' || c == '\n' || c == '\r' || c == '\x0b' || c == '\x0c'

/-- Lower-case a character and turn every non-word character into a space
(the combined effect of `text.lower()` and `re.sub(r'[^\w\s]', ' ', text)`
as far as the subsequent whitespace-split is concerned). -/
def normChar (c : Char) : Char :=
  let d := c.toLower
  if isWordChar d then d else ' '

/-- Split into maximal runs of non-space characters. -/
def splitWords : List Char → List (List Char)
  | [] => []
  | c :: rest =>
    if c = ' ' then splitWords rest
    else
      match rest with
      | [] => [[c]]
      | d :: _ =>
        if d = ' ' then [c] :: splitWords rest
        else
          match splitWords rest with
          | [] => [[c]]
          | w :: ws => (c :: w) :: ws

/-- `DietClassifier._clean_text`: the normalised text, i.e. the lowered
word-character runs joined by single spaces. -/
def cleanText (t : List Char) : List Char :=
  List.intercalate [' '] (splitWords (t.map normChar))

/-- `true` when position `i` of `s` is out of range or holds a non-word
character (used for the `\b` conditions around a keyword that itself starts
and ends with word characters, as every keyword in the tables does). -/
def noWordCharAt (s : List Char) (i : Nat) : Bool :=
  match s.get? i with
  | none => true
  | some c => !isWordChar c

/-- One candidate match of `re.search(r'\b' + re.escape(kw) + r'\b', s)`
at start position `i`. -/
def matchAt (s kw : List Char) (i : Nat) : Bool :=
  decide ((s.drop i).take kw.length = kw)
  && (decide (i = 0) || noWordCharAt s (i - 1))
  && noWordCharAt s (i + kw.length)

/-- `re.search` of the word-bounded keyword pattern over `s`. -/
def searchWord (s kw : List Char) : Bool :=
  (List.range (s.length + 1)).any fun i => matchAt s kw i

/-- `DietClassifier._contains_keywords`: some keyword occurs word-bounded in
the cleaned text.  (Python iterates a `set`; `any` makes the order
irrelevant.) -/
def containsKeywords (t : List Char) (kws : List (List Char)) : Bool :=
  kws.any fun k => searchWord (cleanText t) k

/-- Python substring test `sub in s` (used by the confidence-boost pass,
which does NOT use word boundaries). -/
def containsSub (s sub : List Char) : Bool :=
  (List.range (s.length + 1)).any fun i => decide ((s.drop i).take sub.length = sub)

/-- Keyword tables as character lists. -/
def kwTable (l : List String) : List (List Char) := l.map String.data

/-- `DietClassifier.non_veg_keywords`. -/
def non_veg_keywords : List (List Char) := kwTable [
  "beef", "pork", "chicken", "turkey", "duck", "lamb", "mutton", "veal",
  "ham", "bacon", "sausage", "pepperoni", "salami", "prosciutto",
  "meat", "poultry", "game", "venison", "goat", "buffalo",
  "fish", "salmon", "tuna", "cod", "mackerel", "sardine", "anchovy",
  "shrimp", "prawn", "lobster", "crab", "oyster", "mussel", "clam",
  "scallop", "squid", "octopus", "seafood", "caviar", "hilsa", "rohu",
  "egg", "eggs", "albumin", "egg white", "egg yolk", "whole egg",
  "egg powder", "dried egg", "liquid egg", "mayonnaise", "mayo",
  "gelatin", "gelatine", "carmine", "cochineal", "isinglass",
  "lard", "tallow", "suet", "rennet", "pepsin", "bone meal",
  "animal fat", "beef fat", "pork fat", "chicken fat", "fish oil",
  "l-cysteine", "shellac", "lanolin", "stearic acid", "glycerin from animal"]

/-- `DietClassifier.vegetarian_keywords`. -/
def vegetarian_keywords : List (List Char) := kwTable [
  "milk", "cream", "butter", "cheese", "yogurt", "yoghurt",
  "whey", "casein", "lactose", "dairy", "ghee", "paneer",
  "mozzarella", "cheddar", "parmesan", "feta", "ricotta",
  "condensed milk", "evaporated milk", "milk powder", "buttermilk",
  "khoya", "mawa", "rabri", "malai", "dahi", "lassi",
  "honey", "beeswax", "propolis", "royal jelly"]

/-- `DietClassifier.pure_veg_keywords`. -/
def pure_veg_keywords : List (List Char) := kwTable [
  "vegetable", "fruit", "tomato", "potato", "carrot", "spinach",
  "cauliflower", "broccoli", "cabbage", "peas", "beans",
  "rice", "wheat", "flour", "oat", "barley", "corn", "millet",
  "quinoa", "buckwheat", "ragi", "bajra", "jowar",
  "dal", "lentil", "chickpea", "kidney bean", "black bean",
  "moong", "masoor", "chana", "rajma", "urad", "toor",
  "soy", "tofu", "tempeh", "seitan", "plant protein",
  "almond", "cashew", "walnut", "peanut", "pistachio",
  "sesame", "sunflower seed", "pumpkin seed", "chia seed",
  "coconut oil", "olive oil", "sunflower oil", "mustard oil",
  "sesame oil", "groundnut oil", "vegetable oil",
  "turmeric", "cumin", "coriander", "cardamom", "cinnamon",
  "clove", "black pepper", "ginger", "mint", "basil",
  "plant-based", "vegan", "pure vegetarian", "no animal products"]

/-- `DietClassifier.jain_restricted`. -/
def jain_restricted : List (List Char) := kwTable [
  "onion", "garlic", "potato", "carrot", "radish", "beetroot",
  "ginger", "turnip", "leek", "shallot", "scallion"]

/-- Result dict of the classifier.  Confidence is the Python float scaled by
100 (0.95 ↦ 95, etc.). -/
structure DietResult where
  diet_type : String
  confidencePct : Nat
  reason : String
deriving DecidableEq

/-- `DietClassifier.classify_by_ingredients` (string-input case; the list
case first joins with spaces).  `ingredients.all pySpace` is the Python test
`not ingredient_text.strip()`. -/
def classify_by_ingredients (ingredients : List Char) (check_jain : Bool) : DietResult :=
  if ingredients.all pySpace then
    ⟨"Unknown", 0, "No ingredient information provided"⟩
  else if containsKeywords ingredients non_veg_keywords then
    ⟨"Non-Vegetarian", 95, "Contains meat, fish, eggs, or other non-vegetarian ingredients"⟩
  else if containsKeywords ingredients vegetarian_keywords then
    ⟨"Vegetarian", 85, "Contains dairy products but no non-vegetarian ingredients"⟩
  else if check_jain && containsKeywords ingredients jain_restricted then
    ⟨"Vegetarian", 75, "Contains root vegetables (not suitable for Jain diet)"⟩
  else if containsKeywords ingredients pure_veg_keywords then
    ⟨"Pure Vegetarian", 80, "Contains only plant-based ingredients"⟩
  else
    ⟨"Pure Vegetarian", 65, "No animal-derived ingredients detected"⟩

/-- Indicator lists of the confidence-boost pass. -/
def non_veg_indicators : List (List Char) :=
  kwTable ["meat", "chicken", "mutton", "fish", "egg", "prawn", "crab"]

def veg_indicators : List (List Char) :=
  kwTable ["paneer", "cheese", "milk", "dairy", "ghee", "butter"]

def pure_veg_indicators : List (List Char) :=
  kwTable ["vegan", "plant-based", "pure veg", "no dairy", "dairy-free"]

/-- `DietClassifier.classify_by_product_info`: classify the concatenation
`f"{product_name} {categories} {ingredients}"`, then boost (never change) the
label's confidence when the lowered name+category text contains a
corroborating indicator substring. -/
def classify_by_product_info (product_name categories ingredients : List Char)
    (check_jain : Bool) : DietResult :=
  let combined := product_name ++ ' ' :: categories ++ ' ' :: ingredients
  let result := classify_by_ingredients combined check_jain
  let product_text := (product_name ++ ' ' :: categories).map Char.toLower
  let r1 :=
    if non_veg_indicators.any (fun k => containsSub product_text k) then
      (if result.diet_type = "Non-Vegetarian" then
        { result with confidencePct := min 98 (result.confidencePct + 10) }
      else result)
    else result
  let r2 :=
    if veg_indicators.any (fun k => containsSub product_text k) then
      (if r1.diet_type = "Vegetarian" then
        { r1 with confidencePct := min 92 (r1.confidencePct + 10) }
      else r1)
    else r1
  if pure_veg_indicators.any (fun k => containsSub product_text k) then
    (if r2.diet_type = "Pure Vegetarian" then
      { r2 with confidencePct := min 95 (r2.confidencePct + 15) }
    else r2)
  else r2

/-! ## Nutrition data model (`processor.py`, `health_score_model.py`)

The engine's dicts are keyed by the 13 canonical USDA attribute names
(`HealthScoreModel.feature_columns`); we model the key space as a finite type
and a dict as an association list. -/

/-- The 13 canonical nutrient attributes. -/
inductive Attr
  | Calories | Protein | TotalFat | Carbohydrate | Sodium | SaturatedFat
  | Sugar | Calcium | Iron | Potassium | VitaminC | VitaminE | VitaminD
deriving DecidableEq

/-- `HealthScoreModel.feature_columns` (also the key-insertion order of the
defaults dict in `NutriAnalyzer._complete_nutrition_data`). -/
def attrOrder : List Attr :=
  [.Calories, .Protein, .TotalFat, .Carbohydrate, .Sodium, .SaturatedFat,
   .Sugar, .Calcium, .Iron, .Potassium, .VitaminC, .VitaminE, .VitaminD]

/-- A sparse nutrition dict: only explicitly provided keys. -/
abbrev SparseVec := List (Attr × ℚ)

/-- The literal default vector of `NutriAnalyzer._complete_nutrition_data`. -/
def defaults : Attr → ℚ
  | .Calories => 200
  | .Protein => 8
  | .TotalFat => 5
  | .Carbohydrate => 25
  | .Sodium => 300
  | .SaturatedFat => 2
  | .Sugar => 5
  | .Calcium => 50
  | .Iron => 2
  | .Potassium => 200
  | .VitaminC => 5
  | .VitaminE => 1
  | .VitaminD => 0

/-- `NutriAnalyzer._complete_nutrition_data`: `defaults.copy()` then
`update(nutrition_facts)` — every canonical key, the input value when the key
is present, the default otherwise, in the defaults dict's key order. -/
def complete_nutrition (nutrition_facts : SparseVec) : SparseVec :=
  attrOrder.map fun a => (a, (List.lookup a nutrition_facts).getD (defaults a))

/-- Python `row.get(col, 0)` / `nutrition_data.get(key, 0)`. -/
def rowGet (row : SparseVec) (a : Attr) : ℚ :=
  (List.lookup a row).getD 0

/-! ## Health-score model (`health_score_model.py`) -/

/-- Outcome of a Python call: a normal return or a raised exception. -/
inductive PyResult (α : Type)
  | ok : α → PyResult α
  | raised : String → PyResult α
deriving DecidableEq

/-- `max(0, min(100, score))` (also `np.clip(score, 0, 100)`). -/
def clip01 (x : ℚ) : ℚ := max 0 (min 100 x)

/-- `HealthScoreModel._calculate_health_score` for one row: base 50 plus the
per-nutrient band adjustments, clamped to `[0, 100]`. -/
def calculate_health_score (row : SparseVec) : ℚ :=
  let score : ℚ := 50
  let calories := rowGet row .Calories
  let score := if calories ≤ 100 then score + 15
    else if calories ≤ 200 then score + 10
    else if calories ≤ 300 then score + 5
    else if calories > 500 then score - 15 else score
  let protein := rowGet row .Protein
  let score := if protein ≥ 20 then score + 15
    else if protein ≥ 10 then score + 10
    else if protein ≥ 5 then score + 5 else score
  let fat := rowGet row .TotalFat
  let score := if fat ≤ 3 then score + 10
    else if fat ≤ 10 then score + 5
    else if fat > 30 then score - 15 else score
  let sat_fat := rowGet row .SaturatedFat
  let score := if sat_fat ≤ 1 then score + 10
    else if sat_fat ≤ 5 then score + 5
    else if sat_fat > 10 then score - 15 else score
  let sugar := rowGet row .Sugar
  let score := if sugar ≤ 2 then score + 10
    else if sugar ≤ 10 then score + 5
    else if sugar > 25 then score - 15 else score
  let sodium := rowGet row .Sodium
  let score := if sodium ≤ 100 then score + 10
    else if sodium ≤ 300 then score + 5
    else if sodium > 1000 then score - 15 else score
  let vitamin_c := rowGet row .VitaminC
  let score := if vitamin_c ≥ 50 then score + 10
    else if vitamin_c ≥ 10 then score + 5 else score
  let calcium := rowGet row .Calcium
  let score := if calcium ≥ 200 then score + 8
    else if calcium ≥ 100 then score + 4 else score
  let iron := rowGet row .Iron
  let score := if iron ≥ 5 then score + 8
    else if iron ≥ 2 then score + 4 else score
  let potassium := rowGet row .Potassium
  let score := if potassium ≥ 300 then score + 8
    else if potassium ≥ 150 then score + 4 else score
  clip01 score

/-- One row of the reference training dataset: the 13 feature columns plus
the `Description` column, each possibly missing (NaN). -/
structure TrainRow where
  features : Attr → Option ℚ
  description : Option String

/-- A row that `df[feature_columns + ['Description']].dropna()` keeps. -/
def usableRow (r : TrainRow) : Bool :=
  (attrOrder.all fun a => (r.features a).isSome) && r.description.isSome

/-- `HealthScoreModel.train`, restricted to its control flow around the
minimum-sample guard: after dropping unusable rows, fewer than 100 remaining
rows makes `train` print a warning and return `None` (no exception), leaving
`is_trained` unchanged; otherwise it fits the model, sets `is_trained = True`
and returns the metrics (abstracted to `Unit` — the fitted-forest numerics are
outside the embedding).  Result: (returned value or raised error, `is_trained`
afterwards). -/
def train (is_trained : Bool) (rows : List TrainRow) :
    PyResult (Option Unit) × Bool :=
  if (rows.filter usableRow).length < 100 then
    (.ok none, is_trained)
  else
    (.ok (some ()), true)

/-- The in-memory model: `none` while untrained; when trained, the fitted
preprocessing + scaler + random-forest pipeline is abstracted as a function
from the input dict to a returned or raised raw prediction (the code clips
the returned value afterwards). -/
structure System where
  trained : Option (SparseVec → PyResult ℚ)

/-- `HealthScoreModel.is_trained`. -/
def System.is_trained (s : System) : Bool := s.trained.isSome

/-- `HealthScoreModel.predict_health_score`: raises before training;
otherwise runs the fitted pipeline and clips the prediction to `[0, 100]`. -/
def predict_health_score (sys : System) (nutrition_data : SparseVec) : PyResult ℚ :=
  match sys.trained with
  | none => .raised "Model must be trained before making predictions"
  | some reg =>
    match reg nutrition_data with
    | .ok v => .ok (clip01 v)
    | .raised e => .raised e

/-- `HealthScoreModel.get_health_rating`. -/
def get_health_rating (score : ℚ) : String :=
  if score ≥ 80 then "Excellent"
  else if score ≥ 65 then "Good"
  else if score ≥ 45 then "OK"
  else "Poor"

/-! ## Orchestrator (`processor.py`) -/

/-- The `health_analysis` sub-dict of an analysis result.  On the
predict-error path the code stores no `nutrition_data` key and the suggestion
generator reads it back with default `{}`; that path is modelled by `[]`. -/
structure HealthAnalysis where
  score : Option ℚ
  rating : String
  nutrition_data : SparseVec
  error : Option String
deriving DecidableEq

/-- The result dict of `NutriAnalyzer.analyze_product`. -/
structure AnalysisResult where
  product_name : String
  analysis_status : String
  diet_classification : DietResult
  health_analysis : HealthAnalysis
  suggestions : List String
deriving DecidableEq

/-- Python truthiness of the `nutrition_facts` argument
(`if nutrition_facts and ...`): `None` and the empty dict are falsy. -/
def truthyNutrition : Option SparseVec → Bool
  | none => false
  | some l => !l.isEmpty

/-- Diet-tier suggestion rules of `NutriAnalyzer._generate_suggestions`,
keyed on the classifier label exactly as the code tests it (note: the code
tests `'Vegan'`, a label the classifier never produces). -/
def dietSuggestions (diet_type : String) : List String :=
  if diet_type = "Vegan" then
    ["🌱 Great choice for plant-based eating!",
     "💪 Consider pairing with protein-rich legumes or nuts"]
  else if diet_type = "Vegetarian" then
    ["🥛 Contains dairy/eggs - good source of complete proteins",
     "🥬 Add more vegetables for balanced nutrition"]
  else if diet_type = "Non-Vegetarian" then
    ["🥩 Contains animal products - ensure portion control",
     "🌿 Balance with plant-based sides for fiber"]
  else []

/-- Score-band suggestion rules (fire only when a score is present). -/
def scoreSuggestions : Option ℚ → List String
  | none => []
  | some s =>
    if s ≥ 80 then ["⭐ Excellent nutritional profile!"]
    else if s ≥ 65 then ["👍 Good nutritional choice"]
    else if s ≥ 45 then ["⚠️ Moderate nutrition - consume in moderation"]
    else ["❌ Consider healthier alternatives"]

/-- Nutrient-threshold suggestion rules, guarded by the dict's truthiness
(`if nutrition_data:`), in declaration order. -/
def nutrientSuggestions (nutrition_data : SparseVec) : List String :=
  if nutrition_data.isEmpty then [] else
    (if rowGet nutrition_data .Sugar > 15 then
      ["🍯 High in sugar - limit portion size"] else []) ++
    (if rowGet nutrition_data .Sodium > 500 then
      ["🧂 High sodium content - drink plenty of water"] else []) ++
    (if rowGet nutrition_data .SaturatedFat > 5 then
      ["🧈 High saturated fat - choose lean alternatives"] else []) ++
    (if rowGet nutrition_data .Protein > 15 then
      ["💪 Good protein source!"] else []) ++
    (if rowGet nutrition_data .VitaminC > 30 then
      ["🍊 Rich in Vitamin C - great for immunity!"] else []) ++
    (if rowGet nutrition_data .Calcium > 150 then
      ["🦴 Good source of calcium for bone health!"] else [])

/-- `NutriAnalyzer._generate_suggestions`: the fired rules in declaration
order — diet tier, then score band, then nutrient thresholds — truncated to
the first 5 (`suggestions[:5]`). -/
def generate_suggestions (diet_type : String) (score : Option ℚ)
    (nutrition_data : SparseVec) : List String :=
  (dietSuggestions diet_type ++ scoreSuggestions score
    ++ nutrientSuggestions nutrition_data).take 5

/-- `NutriAnalyzer.analyze_product`.  The classifier call sits in a
`try/except` in the source; the embedded classifier is total, so only its
normal result appears.  The predict call's `try/except` is the `match` on
`PyResult`: a raised prediction error is downgraded and never escapes, so
`analyze_product` itself is a total function (it raises nothing). -/
def analyze_product (sys : System) (product_name ingredients : String)
    (nutrition_facts : Option SparseVec) : AnalysisResult :=
  let diet := classify_by_product_info product_name.data [] ingredients.data false
  let ha : HealthAnalysis :=
    if truthyNutrition nutrition_facts && sys.is_trained then
      let cn := complete_nutrition (nutrition_facts.getD [])
      match predict_health_score sys cn with
      | .ok score => ⟨some score, get_health_rating score, cn, none⟩
      | .raised e => ⟨none, "Unknown", [], some e⟩
    else ⟨none, "Insufficient data", nutrition_facts.getD [], none⟩
  { product_name := product_name
    analysis_status := "success"
    diet_classification := diet
    health_analysis := ha
    suggestions := generate_suggestions diet.diet_type ha.score ha.nutrition_data }

/-- One `products` entry of `NutriAnalyzer.compare_products` (the kwargs of
one `analyze_product` call). -/
structure ProductInput where
  product_name : String
  ingredients : String
  nutrition_facts : Option SparseVec

/-- The winner selection of `NutriAnalyzer.compare_products`: `max` over the
present scores, then the first analysis whose score equals that maximum
(`None` when no score is present).  `List.max?` is Python's `max` — `none` on
`[]`, otherwise a left fold of binary `max`. -/
def winner_of (analyses : List AnalysisResult) : Option AnalysisResult :=
  match (analyses.filterMap fun a => a.health_analysis.score).max? with
  | none => none
  | some best => analyses.find? fun a => decide (a.health_analysis.score = some best)

/-- Result of `NutriAnalyzer.compare_products`: the error dict, or the
per-product analyses plus the winner. -/
inductive CompareResult
  | error : String → CompareResult
  | ok : List AnalysisResult → Option AnalysisResult → CompareResult
deriving DecidableEq

/-- `NutriAnalyzer.compare_products`. -/
def compare_products (sys : System) (products : List ProductInput) : CompareResult :=
  if products.length < 2 then
    .error "Need at least 2 products to compare"
  else
    let analyses := products.map fun p =>
      analyze_product sys p.product_name p.ingredients p.nutrition_facts
    .ok analyses (winner_of analyses)

/-! ## Lemmas and claim theorems -/

theorem pySpace_normChar {c : Char} (h : pySpace c = true) : normChar c = ' ' := by
  simp only [pySpace, Bool.or_eq_true, beq_iff_eq] at h
  rcases h with ((((h | h) | h) | h) | h) | h <;> subst h <;> decide

theorem splitWords_all_space {l : List Char} (h : ∀ c ∈ l, c = ' ') : splitWords l = [] := by
  induction l with
  | nil => rfl
  | cons c rest ih =>
    have hc : c = ' ' := h c (List.mem_cons_self c rest)
    rw [splitWords.eq_def]
    dsimp only
    rw [if_pos hc]
    exact ih fun d hd => h d (List.mem_cons_of_mem c hd)

theorem cleanText_all_space {t : List Char} (h : t.all pySpace = true) :
    cleanText t = [] := by
  have hsp : splitWords (t.map normChar) = [] := by
    apply splitWords_all_space
    intro c hc
    rcases List.mem_map.mp hc with ⟨d, hd, rfl⟩
    exact pySpace_normChar (List.all_eq_true.mp h d hd)
  rw [cleanText, hsp]
  rfl

theorem searchWord_nil {kw : List Char} (hkw : kw ≠ []) : searchWord [] kw = false := by
  have h1 : List.range (List.length ([] : List Char) + 1) = [0] := rfl
  have hd : decide (([] : List Char) = kw) = false := decide_eq_false (Ne.symm hkw)
  simp only [searchWord, h1, List.any_cons, List.any_nil, Bool.or_false, matchAt,
    List.drop_nil, List.take_nil, hd, Bool.false_and]

theorem containsKeywords_not_all_space {t : List Char} {kws : List (List Char)}
    (hne : ∀ kw ∈ kws, kw ≠ []) (h : containsKeywords t kws = true) :
    t.all pySpace = false := by
  by_contra hc
  have hall : t.all pySpace = true := by
    cases he : t.all pySpace with
    | false => exact absurd he hc
    | true => rfl
  rcases List.any_eq_true.mp h with ⟨kw, hkw, hs⟩
  rw [cleanText_all_space hall, searchWord_nil (hne kw hkw)] at hs
  cases hs

theorem non_veg_keywords_ne_nil : ∀ kw ∈ non_veg_keywords, kw ≠ [] := by decide

theorem classify_nonveg {t : List Char} (j : Bool)
    (h : containsKeywords t non_veg_keywords = true) :
    classify_by_ingredients t j =
      ⟨"Non-Vegetarian", 95, "Contains meat, fish, eggs, or other non-vegetarian ingredients"⟩ := by
  have hsp : t.all pySpace = false :=
    containsKeywords_not_all_space non_veg_keywords_ne_nil h
  simp [classify_by_ingredients, hsp, h]

/-- C1: tier priority — any ingredient text containing a non-vegetarian
keyword as a whole word is classified Non-Vegetarian (by both
`classify_by_ingredients` and `classify_by_product_info`), never a
vegetarian or plant-based tier, no matter what other keywords occur. -/
theorem c1_tier_priority :
    (∀ (t : List Char) (j : Bool), containsKeywords t non_veg_keywords = true →
      classify_by_ingredients t j =
        ⟨"Non-Vegetarian", 95, "Contains meat, fish, eggs, or other non-vegetarian ingredients"⟩)
    ∧ (∀ (n c i : List Char) (j : Bool),
      containsKeywords (n ++ ' ' :: c ++ ' ' :: i) non_veg_keywords = true →
      (classify_by_product_info n c i j).diet_type = "Non-Vegetarian") := by
  constructor
  · exact fun t j h => classify_nonveg j h
  · intro n c i j h
    simp only [classify_by_product_info, classify_nonveg j h]
    split_ifs <;> rfl

/-- Witness for C1 at a concrete input. -/
theorem c1_witness :
    classify_by_ingredients (String.data "basmati rice, chicken, ghee") false =
      ⟨"Non-Vegetarian", 95, "Contains meat, fish, eggs, or other non-vegetarian ingredients"⟩ :=
  c1_tier_priority.1 _ false (by decide)

/-- C4: word-boundary matching — "eggplant, rice" is a plant-based tier (the
"egg" keyword does not fire inside "eggplant"), while "egg, rice" is
Non-Vegetarian. -/
theorem c4_word_boundary :
    classify_by_ingredients (String.data "eggplant, rice") false =
      ⟨"Pure Vegetarian", 80, "Contains only plant-based ingredients"⟩
    ∧ classify_by_ingredients (String.data "egg, rice") false =
      ⟨"Non-Vegetarian", 95, "Contains meat, fish, eggs, or other non-vegetarian ingredients"⟩ := by
  constructor <;> decide

/-! ## C5, C2 -/

theorem lookup_map_attr (f : Attr → ℚ) (a : Attr) :
    List.lookup a (attrOrder.map fun b => (b, f b)) = some (f a) := by
  cases a <;> rfl

/-- C5: feature completion — `_complete_nutrition_data` returns exactly the
13 canonical attributes, keeps every present key's value, fills every absent
key with its documented default, and is idempotent. -/
theorem c5_feature_completion (s : SparseVec) :
    (complete_nutrition s).map Prod.fst = attrOrder
    ∧ (∀ a v, List.lookup a s = some v →
        List.lookup a (complete_nutrition s) = some v)
    ∧ (∀ a, List.lookup a s = none →
        List.lookup a (complete_nutrition s) = some (defaults a))
    ∧ complete_nutrition (complete_nutrition s) = complete_nutrition s := by
  have hlk : ∀ a : Attr, List.lookup a (complete_nutrition s) =
      some ((List.lookup a s).getD (defaults a)) :=
    fun a => lookup_map_attr (fun b => (List.lookup b s).getD (defaults b)) a
  refine ⟨rfl, ?_, ?_, ?_⟩
  · intro a v h
    rw [hlk a, h]
    rfl
  · intro a h
    rw [hlk a, h]
    rfl
  · show attrOrder.map
        (fun a => (a, (List.lookup a (complete_nutrition s)).getD (defaults a)))
      = complete_nutrition s
    have he : (fun a : Attr =>
          (a, (List.lookup a (complete_nutrition s)).getD (defaults a)))
        = fun a : Attr => (a, (List.lookup a s).getD (defaults a)) := by
      funext a
      rw [hlk a]
      rfl
    rw [he]
    rfl

/-- Witness for C5 at a concrete sparse input. -/
theorem c5_witness :
    List.lookup Attr.Sugar (complete_nutrition [(Attr.Sugar, 20)]) = some 20
    ∧ List.lookup Attr.Calories (complete_nutrition [(Attr.Sugar, 20)]) = some 200 :=
  ⟨(c5_feature_completion [(Attr.Sugar, 20)]).2.1 Attr.Sugar 20 (by decide),
   (c5_feature_completion [(Attr.Sugar, 20)]).2.2.1 Attr.Calories (by decide)⟩

/-- C2 counterexample: on a dataset with no usable rows, `train` raises no
error — it returns `None` normally (after printing a warning), so there is no
hard failure; `is_trained` stays `False`. -/
theorem c2_counterexample : train false [] = (PyResult.ok none, false) := rfl

/-- C2 (amended): with fewer than 100 usable rows after cleaning, `train`
returns `None` without raising, and `is_trained` is left unchanged — the
model does not transition to the Trained state. -/
theorem c2_min_sample_guard (b : Bool) (rows : List TrainRow)
    (h : (rows.filter usableRow).length < 100) :
    (train b rows).1 = PyResult.ok none ∧ (train b rows).2 = b := by
  unfold train
  rw [if_pos h]
  exact ⟨rfl, rfl⟩

/-- Witness for the amended C2. -/
theorem c2_witness :
    (train false []).1 = PyResult.ok none ∧ (train false []).2 = false :=
  c2_min_sample_guard false [] (by decide)

/-! ## C6, C7, C10, C8, C3 -/

/-- C6: calling `predict_health_score` on an untrained model raises the
"model must be trained" error; `analyze_product` in the same state (or with
no nutrition data) instead returns `score = None`,
`rating = "Insufficient data"` — and, being a total function, raises nothing
to its caller. -/
theorem c6_untrained_behaviour :
    (∀ nd : SparseVec, predict_health_score ⟨none⟩ nd =
      .raised "Model must be trained before making predictions")
    ∧ (∀ (sys : System) (n i : String) (nf : Option SparseVec),
        sys.trained = none ∨ truthyNutrition nf = false →
        (analyze_product sys n i nf).health_analysis.score = none
        ∧ (analyze_product sys n i nf).health_analysis.rating = "Insufficient data") := by
  constructor
  · intro nd
    rfl
  · intro sys n i nf h
    have hc : (truthyNutrition nf && sys.is_trained) = false := by
      rcases h with h | h
      · simp [System.is_trained, h]
      · simp [h]
    simp [analyze_product, hc]

/-- Witness for C6. -/
theorem c6_witness :
    predict_health_score ⟨none⟩ [] =
      .raised "Model must be trained before making predictions"
    ∧ (analyze_product ⟨none⟩ "" "" none).health_analysis.rating = "Insufficient data" :=
  ⟨c6_untrained_behaviour.1 [], (c6_untrained_behaviour.2 ⟨none⟩ "" "" none (Or.inl rfl)).2⟩

theorem clip01_range (x : ℚ) : 0 ≤ clip01 x ∧ clip01 x ≤ 100 :=
  ⟨le_max_left 0 _, max_le (by norm_num) (min_le_left 100 x)⟩

/-- C7: score range — the training-time heuristic label is clamped to
`[0, 100]` for every non-negative row, and every score the trained model
returns (whatever the underlying regressor outputs) is clamped to
`[0, 100]`. -/
theorem c7_score_range :
    (∀ row : SparseVec, (∀ a, 0 ≤ rowGet row a) →
      0 ≤ calculate_health_score row ∧ calculate_health_score row ≤ 100)
    ∧ (∀ (reg : SparseVec → PyResult ℚ) (nd : SparseVec) (s : ℚ),
        (∀ a, 0 ≤ rowGet nd a) →
        predict_health_score ⟨some reg⟩ nd = .ok s → 0 ≤ s ∧ s ≤ 100) := by
  constructor
  · intro row _
    exact clip01_range _
  · intro reg nd s _ h
    unfold predict_health_score at h
    dsimp only at h
    cases hr : reg nd with
    | ok v =>
      rw [hr] at h
      injection h with h2
      rw [← h2]
      exact clip01_range v
    | raised e =>
      rw [hr] at h
      cases h

/-- Witness for C7: a regressor output of 1000 is clamped to 100. -/
theorem c7_witness :
    0 ≤ calculate_health_score [] ∧ calculate_health_score [] ≤ 100
    ∧ predict_health_score ⟨some fun _ => .ok 1000⟩ [] = .ok 100 := by
  refine ⟨(c7_score_range.1 [] fun a => le_refl 0).1,
    (c7_score_range.1 [] fun a => le_refl 0).2, ?_⟩
  decide

/-- C10 (implicit invariant): every result of `analyze_product` carries
`analysis_status = "success"`; no code path assigns a different value. -/
theorem c10_status_always_success (sys : System) (n i : String)
    (nf : Option SparseVec) :
    (analyze_product sys n i nf).analysis_status = "success" := rfl

/-- C8: for every input, the suggestion list of `analyze_product` has length
at most 5 and equals the first 5 entries of the fired rules in declaration
order — diet-tier rules, then score-band rules, then nutrient-threshold
rules. -/
theorem c8_suggestion_cap_and_order (sys : System) (n i : String)
    (nf : Option SparseVec) :
    (analyze_product sys n i nf).suggestions.length ≤ 5
    ∧ (analyze_product sys n i nf).suggestions =
      (dietSuggestions (analyze_product sys n i nf).diet_classification.diet_type
        ++ scoreSuggestions (analyze_product sys n i nf).health_analysis.score
        ++ nutrientSuggestions
            (analyze_product sys n i nf).health_analysis.nutrition_data).take 5 := by
  have hgen : ∀ (d : String) (sc : Option ℚ) (nd : SparseVec),
      (generate_suggestions d sc nd).length ≤ 5 := by
    intro d sc nd
    rw [generate_suggestions, List.length_take]
    exact min_le_left 5 _
  exact ⟨hgen _ _ _, rfl⟩

/-- C3 (the code departs from the claim): the classifier labels plain-plant
products "Pure Vegetarian", but the diet-tier suggestion rule for that tier
tests the label "Vegan", so no diet-tier suggestion ever fires for it: here
the classification is Pure Vegetarian yet the suggestion list is empty
instead of starting with the plant-tier advice. -/
theorem c3_dead_vegan_rule :
    (analyze_product ⟨none⟩ "" "rice" none).diet_classification.diet_type
      = "Pure Vegetarian"
    ∧ dietSuggestions "Pure Vegetarian" = []
    ∧ (analyze_product ⟨none⟩ "" "rice" none).suggestions = [] := by
  refine ⟨by decide, by decide, by decide⟩

/-! ## C9 -/

theorem le_foldl_max (xs : List ℚ) (a : ℚ) : a ≤ xs.foldl max a := by
  induction xs generalizing a with
  | nil => exact le_refl a
  | cons x xs ih => exact le_trans (le_max_left a x) (ih (max a x))

theorem foldl_max_ub (xs : List ℚ) (a x : ℚ) (hx : x ∈ xs) :
    x ≤ xs.foldl max a := by
  induction xs generalizing a with
  | nil => cases hx
  | cons y ys ih =>
    rcases List.mem_cons.mp hx with rfl | hmem
    · exact le_trans (le_max_right a x) (le_foldl_max ys (max a x))
    · exact ih (max a y) hmem

theorem foldl_max_mem (xs : List ℚ) (a : ℚ) :
    xs.foldl max a = a ∨ xs.foldl max a ∈ xs := by
  induction xs generalizing a with
  | nil => exact Or.inl rfl
  | cons y ys ih =>
    rcases ih (max a y) with h | h
    · rcases max_choice a y with h2 | h2
      · exact Or.inl (h.trans h2)
      · refine Or.inr ?_
        show List.foldl max (max a y) ys ∈ y :: ys
        rw [h, h2]
        exact List.mem_cons_self y ys
    · exact Or.inr (List.mem_cons_of_mem y h)

theorem max?_spec (l : List ℚ) (q : ℚ) (h : l.max? = some q) :
    q ∈ l ∧ ∀ x ∈ l, x ≤ q := by
  cases l with
  | nil => cases h
  | cons a xs =>
    have hq : q = xs.foldl max a := (Option.some.inj h).symm
    subst hq
    constructor
    · rcases foldl_max_mem xs a with h2 | h2
      · rw [h2]; exact List.mem_cons_self a xs
      · exact List.mem_cons_of_mem a h2
    · intro x hx
      rcases List.mem_cons.mp hx with rfl | hmem
      · exact le_foldl_max xs x
      · exact foldl_max_ub xs a x hmem

theorem find?_eq_get (p : AnalysisResult → Bool) (l : List AnalysisResult)
    (i : Nat) (hi : i < l.length) (hp : p (l.get ⟨i, hi⟩) = true)
    (hb : ∀ (j : Nat) (hj : j < l.length), j < i → p (l.get ⟨j, hj⟩) = false) :
    l.find? p = some (l.get ⟨i, hi⟩) := by
  induction l generalizing i with
  | nil => exact absurd hi (Nat.not_lt_zero i)
  | cons a l ih =>
    cases i with
    | zero => exact List.find?_cons_of_pos l hp
    | succ i =>
      have ha : p a = false :=
        hb 0 (Nat.succ_pos l.length) (Nat.succ_pos i)
      rw [List.find?_cons_of_neg l (by simp [ha])]
      exact ih i (Nat.lt_of_succ_lt_succ hi) hp
        fun j hj hji => hb (j + 1) (Nat.succ_lt_succ hj) (Nat.succ_lt_succ hji)

/-- C9: `compare_products` with fewer than 2 products reports the
"need at least 2" error and performs no analysis; with 2 or more it analyzes
each entry; the winner is `None` when no entry has a present score, and is
the entry whose present score strictly exceeds every other entry's present
score, when such an entry exists. -/
theorem c9_compare_products :
    (∀ (sys : System) (ps : List ProductInput), ps.length < 2 →
      compare_products sys ps = .error "Need at least 2 products to compare")
    ∧ (∀ (sys : System) (ps : List ProductInput), 2 ≤ ps.length →
      compare_products sys ps =
        .ok (ps.map fun p =>
            analyze_product sys p.product_name p.ingredients p.nutrition_facts)
          (winner_of (ps.map fun p =>
            analyze_product sys p.product_name p.ingredients p.nutrition_facts)))
    ∧ (∀ analyses : List AnalysisResult,
      (∀ a ∈ analyses, a.health_analysis.score = none) →
      winner_of analyses = none)
    ∧ (∀ (analyses : List AnalysisResult) (i : Nat) (hi : i < analyses.length)
        (q : ℚ),
      (analyses.get ⟨i, hi⟩).health_analysis.score = some q →
      (∀ (j : Nat) (hj : j < analyses.length), j ≠ i →
        ∀ r, (analyses.get ⟨j, hj⟩).health_analysis.score = some r → r < q) →
      winner_of analyses = some (analyses.get ⟨i, hi⟩)) := by
  refine ⟨?_, ?_, ?_, ?_⟩
  · intro sys ps h
    unfold compare_products
    rw [if_pos h]
  · intro sys ps h
    unfold compare_products
    rw [if_neg (Nat.not_lt.mpr h)]
  · intro as h
    unfold winner_of
    rw [List.filterMap_eq_nil_iff.mpr h]
    rfl
  · intro as i hi q hq hstrict
    have hmem : q ∈ as.filterMap fun a => a.health_analysis.score :=
      List.mem_filterMap.mpr ⟨as.get ⟨i, hi⟩, List.get_mem as i hi, hq⟩
    have hub : ∀ x ∈ as.filterMap fun a => a.health_analysis.score, x ≤ q := by
      intro x hx
      rcases List.mem_filterMap.mp hx with ⟨b, hb, hbx⟩
      rcases List.mem_iff_get.mp hb with ⟨⟨j, hj⟩, rfl⟩
      by_cases hji : j = i
      · subst hji
        rw [hq] at hbx
        exact le_of_eq (Option.some.inj hbx.symm)
      · exact le_of_lt (hstrict j hj hji x hbx)
    obtain ⟨m, hm⟩ : ∃ m, (as.filterMap fun a => a.health_analysis.score).max? = some m := by
      cases hfm : as.filterMap fun a => a.health_analysis.score with
      | nil => rw [hfm] at hmem; cases hmem
      | cons x xs => exact ⟨xs.foldl max x, rfl⟩
    have hspec := max?_spec _ m hm
    have hmq : m = q := le_antisymm (hub m hspec.1) (hspec.2 q hmem)
    subst hmq
    unfold winner_of
    rw [hm]
    refine find?_eq_get _ as i hi ?_ ?_
    · rw [hq]
      exact decide_eq_true rfl
    · intro j hj hji
      apply decide_eq_false
      intro hcontra
      exact lt_irrefl m (hstrict j hj (Nat.ne_of_lt hji) m hcontra)

/-- Witness for C9: one product is rejected with the error result. -/
theorem c9_witness :
    compare_products ⟨none⟩ [⟨"solo", "rice", none⟩] =
      .error "Need at least 2 products to compare" :=
  c9_compare_products.1 ⟨none⟩ [⟨"solo", "rice", none⟩] (by decide)

end NutriBot
